import Mathlib

/-
Verification of the CalgaryRiverBot pipeline (src/main.py) against its
natural-language specification.

Modelling conventions:
- Python floats are modelled as `Option ℚ`: `none` is IEEE NaN ("missing"),
  `some q` is a finite float whose exact rational value is `q`.  Wherever a
  concrete Python float literal matters for rounding, the *exact* rational
  value of the IEEE-754 double is used (e.g. the double nearest 12.345 is
  12.3450000000000006394884621840901672840118408203125).
- `x < k` on floats: NaN compares false against everything, a finite float
  compares by its rational value.  This is `pyLt` below.
- pandas DataFrames are modelled as lists of rows; a raw (pre-coercion) cell
  is a `Cell` (numeric content, non-numeric text, or NaN).
- Python dict literals are modelled by left-to-right insertion into an
  association list (`dictInsert`), so duplicate keys overwrite as in Python.
-/

set_option autoImplicit false
set_option maxRecDepth 10000

namespace RiverBot

/-- A Python float: `none` is NaN / missing, `some q` a finite value. -/
abbrev PyFloat := Option ℚ

/-- The float comparison `x < k`: NaN compares false against every bound,
mirroring IEEE semantics used by `if flow < key` in `status_symbol`. -/
def pyLt (x : PyFloat) (k : ℚ) : Bool :=
  match x with
  | none => false
  | some v => decide (v < k)

/-- One raw table cell before numeric coercion: numeric content, non-numeric
text (which fails `pd.to_numeric` coercion), or already missing. -/
inductive Cell where
  | numeric (q : ℚ)
  | text (s : String)
  | nan
deriving DecidableEq

/-- The value of a cell as a float: text that fails coercion and NaN both
read as missing. -/
def cellVal : Cell → PyFloat
  | .numeric q => some q
  | .text _ => none
  | .nan => none

/-- Insertion of one key into a Python-style dict modelled as an association
list: an existing key is overwritten in place, a new key is appended. -/
def dictInsert {α : Type} (d : List (String × α)) (k : String) (v : α) :
    List (String × α) :=
  if d.any (fun p => p.1 == k) then
    d.map (fun p => if p.1 == k then (k, v) else p)
  else
    d ++ [(k, v)]

/-- A Python dict literal: keys inserted left to right (duplicates overwrite). -/
def dictLit {α : Type} (l : List (String × α)) : List (String × α) :=
  l.foldl (fun d p => dictInsert d p.1 p.2) []

/-- Dict lookup (`d[k]` / `k in d`). -/
def dictFind? {α : Type} (d : List (String × α)) (k : String) : Option α :=
  (d.find? (fun p => p.1 == k)).map (fun p => p.2)

/-- Membership test `k in d.keys()`. -/
def containsKey {α : Type} (d : List (String × α)) (k : String) : Bool :=
  d.any (fun p => p.1 == k)

/-- MARKERS from src/main.py line 15. -/
def MARKERS : List (String × String) :=
  dictLit [("Safe", "🟢"), ("Warn", "🟡"), ("Danger", "🔴")]

/-- Lookup `MARKERS[s]` (total for the keys actually used). -/
def markerOf (s : String) : String := (dictFind? MARKERS s).getD ""

/-- MARKER_LEVELS from src/main.py lines 18-22: station code to an ordered
list of `(upper_bound, marker)` threshold pairs for the "flow" column. -/
def MARKER_LEVELS : List (String × List (ℚ × String)) :=
  dictLit [("05BJ001",
    dictLitQ [(20, markerOf "Safe"), (35, markerOf "Warn"), (50, markerOf "Danger")])]
  where
    /-- The inner dict literal has rational keys; no duplicates occur. -/
    dictLitQ (l : List (ℚ × String)) : List (ℚ × String) := l

/-- The loop body of `status_symbol`: walk `(key, value)` pairs in dict
(insertion) order, returning the first value whose key exceeds the flow;
fall through to the Danger marker (src/main.py lines 126-129). -/
def walkLevels (flow : PyFloat) : List (ℚ × String) → String
  | [] => markerOf "Danger"
  | (key, value) :: rest => if pyLt flow key then value else walkLevels flow rest

/-- status_symbol from src/main.py lines 124-131. -/
def status_symbol (station_number : String) (flow : PyFloat) : String :=
  match dictFind? MARKER_LEVELS station_number with
  | some levels => walkLevels flow levels
  | none => ""

/-- One raw reading row of the bulk table: `day` is the calendar-day index of
the timestamp (the row index used by resample("1D")); level and flow are raw
cells before numeric coercion. -/
structure RawRow where
  day : ℤ
  station_number : String
  station_name : String
  level : Cell
  flow : Cell
deriving DecidableEq

/-- STATIONS from src/main.py lines 25-31. -/
def STATIONS : List (String × String) :=
  dictLit [("05BH004", "Bow River at Calgary"),
           ("05BJ001", "Elbow River below Glenmore Dam"),
           ("05BJ008", "Glenmore Reservoir at Calgary"),
           ("05BH005", "Bow River near Cochrane"),
           ("05BJ004", "Elbow River at Bragg Creek")]

/-- pd.to_numeric with errors="coerce" on one cell: numeric content is kept,
content that fails coercion becomes NaN, NaN stays NaN. -/
def coerceCell : Cell → Cell
  | .numeric q => .numeric q
  | .text _ => .nan
  | .nan => .nan

/-- The column assignment of src/main.py lines 93-95 applied to one row:
level and flow are coerced, all other fields are untouched. -/
def coerceRow (r : RawRow) : RawRow :=
  { r with level := coerceCell r.level, flow := coerceCell r.flow }

/-- The numpy aggregation functions appearing in AGGREGATE_COLUMNS. -/
inductive AggFn where
  | mean
  | min
  | max
deriving DecidableEq

/-- AGGREGATE_COLUMNS from src/main.py lines 42-49: a Python dict literal in
which the key "flow" appears three times, so the later entries overwrite the
earlier ones (dict semantics), leaving only the np.max aggregation for
"flow" and no "flow_min"/"flow_max" keys at all. -/
def AGGREGATE_COLUMNS : List (String × AggFn) :=
  dictLit [("level", AggFn.mean), ("level_min", AggFn.min),
           ("level_max", AggFn.max), ("flow", AggFn.mean),
           ("flow", AggFn.min), ("flow", AggFn.max)]

/-- A row after the placeholder-column assignment of src/main.py lines
99-100: level_min/level_max copy level, flow_min/flow_max copy flow; the
string columns play no further part in aggregation. -/
structure ExtRow where
  day : ℤ
  level : PyFloat
  level_min : PyFloat
  level_max : PyFloat
  flow : PyFloat
  flow_min : PyFloat
  flow_max : PyFloat
deriving DecidableEq

/-- The placeholder-column assignment applied to one (already coerced) row. -/
def extendRow (r : RawRow) : ExtRow :=
  { day := r.day,
    level := cellVal r.level, level_min := cellVal r.level,
    level_max := cellVal r.level,
    flow := cellVal r.flow, flow_min := cellVal r.flow,
    flow_max := cellVal r.flow }

/-- Column access by name on an extended row (only the names occurring in
AGGREGATE_COLUMNS are ever used). -/
def colVal (r : ExtRow) : String → PyFloat
  | "level" => r.level
  | "level_min" => r.level_min
  | "level_max" => r.level_max
  | "flow" => r.flow
  | "flow_min" => r.flow_min
  | "flow_max" => r.flow_max
  | _ => none

/-- Arithmetic mean of a list of rationals. -/
def listMean (vs : List ℚ) : ℚ := vs.sum / (vs.length : ℚ)

/-- One pandas aggregation over a column: NaN entries are skipped; an empty
(or all-NaN) column aggregates to NaN. -/
def npAgg (fn : AggFn) (col : List PyFloat) : PyFloat :=
  match col.filterMap id with
  | [] => none
  | v :: vs =>
      some (match fn with
        | AggFn.mean => listMean (v :: vs)
        | AggFn.min => vs.foldl Min.min v
        | AggFn.max => vs.foldl Max.max v)

/-- The day bins produced by resample("1D"): every calendar day from the
earliest to the latest timestamp, in ascending order, including days with no
rows. -/
def dayRange (rows : List ExtRow) : List ℤ :=
  match rows.map (fun r => r.day) with
  | [] => []
  | d :: ds =>
      let lo := ds.foldl Min.min d
      let hi := ds.foldl Max.max d
      (List.range ((hi - lo).toNat + 1)).map (fun i => lo + i)

/-- resample("1D").agg(AGGREGATE_COLUMNS).fillna(0) from src/main.py line
102: per day, one value per (effective) AGGREGATE_COLUMNS entry, with NaN
aggregates replaced by 0. -/
def resampleAgg (rows : List ExtRow) : List (ℤ × List (String × ℚ)) :=
  (dayRange rows).map (fun d =>
    (d, AGGREGATE_COLUMNS.map (fun p =>
      (p.1, (npAgg p.2 ((rows.filter (fun r => r.day == d)).map
        (fun r => colVal r p.1))).getD 0))))

/-- The result of pull_station: the Python `False` sentinel, a shaped table,
or a daily-aggregated table. -/
inductive PullResult where
  | failure
  | table (rows : List RawRow)
  | agg (rows : List (ℤ × List (String × ℚ)))
deriving DecidableEq

/-- pull_station from src/main.py lines 79-104, with the table argument
(`pull_from_df`) passed explicitly; the HTTP branch is an external
collaborator and is not modelled. Returns `.failure` (the Python `False`)
for an unknown station before touching any data. -/
def pull_station (station_number : String) (aggregate : Bool)
    (pull_from_df : List RawRow) : PullResult :=
  if containsKey STATIONS station_number then
    let df0 := pull_from_df.filter (fun r => r.station_number == station_number)
    let df := df0.map coerceRow
    if aggregate then PullResult.agg (resampleAgg (df.map extendRow))
    else PullResult.table df
  else PullResult.failure

/-- A heap of dataframes, modelling pandas object identity: indices are
references to frames. -/
abbrev Heap := List (List RawRow)

/-- pull_station on an explicit heap, exposing pandas aliasing: boolean-mask
indexing (`pull_from_df[mask]`, line 90) allocates a fresh frame, and the
column assignment of lines 93-95 mutates that fresh frame in place. The
second component is the returned reference (`none` is the `False` sentinel). -/
def pull_station_heap (station_number : String) (h : Heap) (ref : ℕ) :
    Heap × Option ℕ :=
  if containsKey STATIONS station_number then
    let src := (h.get? ref).getD []
    let filtered := src.filter (fun r => r.station_number == station_number)
    let h1 := h ++ [filtered]
    let h2 := h1.set h.length (filtered.map coerceRow)
    (h2, some h.length)
  else (h, none)

/-- Image bytes. -/
abbrev Img := List ℕ

/-- One observable call to the social API. -/
inductive ApiEvent where
  | mediaUpload (filename : String) (file : Img)
  | updateStatus (status : String) (media_ids : List String)
deriving DecidableEq

/-- The upload loop of tweet_general_update (src/main.py lines 206-209):
walks the image list, emitting one media_upload call per image and appending
the response's media_id_string to the accumulated media list. The API's
responses are the environment `api`, indexed by upload count. -/
def uploadImages (api : ℕ → String) (k : ℕ) (media_list : List String) :
    List (Img × String) → List ApiEvent × List String
  | [] => ([], media_list)
  | (image, image_name) :: rest =>
      let res := uploadImages api (k + 1) (media_list ++ [api k]) rest
      (ApiEvent.mediaUpload image_name image :: res.1, res.2)

/-- tweet_general_update from src/main.py lines 199-212 as the trace of API
calls it performs: the uploads of the loop followed by the single
update_status call with the collected media ids. -/
def tweet_general_update (api : ℕ → String) (tweet_str : String)
    (image_list : List (Img × String)) : List ApiEvent :=
  let res := uploadImages api 0 [] image_list
  res.1 ++ [ApiEvent.updateStatus tweet_str res.2]

/-- Round half to even of x·10^n: the rounding of Python's round(x, n)
builtin applied to the exact rational value x of a float, as the integer of
scaled decimal units. Computed on the exact numerator and denominator:
f is the floor of x·10^n (the denominator is positive), r2 is twice the
remainder, compared against the denominator to place the fraction relative
to one half; an exact half rounds to the even neighbour. -/
def roundScaled (x : ℚ) (n : ℕ) : ℤ :=
  let a := x.num * 10 ^ n
  let d := (x.den : ℤ)
  let f := a.fdiv d
  let r2 := 2 * (a - f * d)
  if r2 < d then f
  else if d < r2 then f + 1
  else if f % 2 = 0 then f else f + 1

/-- Drop trailing zero characters of a digit list. -/
def stripTrailingZeros : List Char → List Char
  | [] => []
  | c :: cs =>
      match stripTrailingZeros cs with
      | [] => if c = '0' then [] else [c]
      | cs1 => c :: cs1

/-- Zero-pad a digit string on the left to length n. -/
def padLeftZeros (s : String) (n : ℕ) : String :=
  String.mk (List.replicate (n - s.length) '0') ++ s

/-- str() of the Python float round(x, n), where x is the exact rational
value of a finite double. Python round is correctly rounded (ties to even)
and an f-string renders the resulting float as the shortest round-tripping
decimal; for the at-most-2-decimal results of this program that is the
rounded decimal itself with trailing fractional zeros removed — and since
round returns a float, an integral value keeps a trailing ".0". -/
def strOfRound (x : ℚ) (n : ℕ) : String :=
  let m := roundScaled x n
  if n = 0 then toString m ++ ".0"
  else
    let sign := if m < 0 then "-" else ""
    let a := m.natAbs
    let ip := a / 10 ^ n
    let fracAll := padLeftZeros (toString (a % 10 ^ n)) n
    let frac :=
      match stripTrailingZeros fracAll.data with
      | [] => "0"
      | cs => String.mk cs
    sign ++ toString ip ++ "." ++ frac

/-- The timestamp index of a reading row, with the fields strftime needs. -/
structure Timestamp where
  month : ℕ
  day : ℕ
  year : ℕ
  hour : ℕ
  minute : ℕ
deriving DecidableEq

/-- Two-digit zero padding used by the strftime fields %m %d %H %M. -/
def pad2 (n : ℕ) : String := if n < 10 then "0" ++ toString n else toString n

/-- strftime("%m/%d/%Y %H:%M %p") of the bow reading's index (src/main.py
line 116): zero-padded month/day, 24-hour %H, and %p from the hour. -/
def strftimeHeader (t : Timestamp) : String :=
  pad2 t.month ++ "/" ++ pad2 t.day ++ "/" ++ toString t.year ++ " " ++
  pad2 t.hour ++ ":" ++ pad2 t.minute ++ " " ++
  (if t.hour < 12 then "AM" else "PM")

/-- One reading row as consumed by gen_tweet_str: the pandas Series whose
`.name` is the timestamp index. -/
structure Reading where
  ts : Timestamp
  station_number : String
  station_name : String
  level : PyFloat
  flow : PyFloat
deriving DecidableEq

/-- Rendering of `round(x, n)` where x may be NaN: round propagates NaN and
the f-string renders it as "nan" — the source has no N/A guard on levels. -/
def showRoundedLevel (x : PyFloat) (n : ℕ) : String :=
  match x with
  | none => "nan"
  | some v => strOfRound v n

/-- Rendering of a flow slot: the source guards with np.isnan and substitutes
"N/A" for a missing flow, otherwise renders round(flow, 2). -/
def showFlow (x : PyFloat) : String :=
  match x with
  | none => "N/A"
  | some v => strOfRound v 2

/-- gen_tweet_str from src/main.py lines 114-121. -/
def gen_tweet_str (bow elbow glenmore bow_c : Reading) : String :=
  "River Stats " ++ strftimeHeader bow.ts ++ "\n" ++
  "Bow Cochrane: " ++ showFlow bow_c.flow ++ " m3/min, " ++
    showRoundedLevel bow_c.level 2 ++ " m\n" ++
  "Bow YYC: " ++ showFlow bow.flow ++ " m3/min, " ++
    showRoundedLevel bow.level 2 ++ " m\n" ++
  "Elbow YYC: " ++ status_symbol elbow.station_number elbow.flow ++ ": " ++
    showFlow elbow.flow ++ " m3/min, " ++
    showRoundedLevel elbow.level 2 ++ " m\n" ++
  "Glenmore Resevoir: " ++ showRoundedLevel glenmore.level 0 ++ " m\n"

/-- The exact rational value of the IEEE-754 double nearest 12.345, i.e. the
value of the Python float literal 12.345, written as a decimal fraction: it
equals 12.3450000000000006394884621840901672840118408203125 and lies
slightly above 12.345, so round(12.345, 2) is 12.35. -/
def dbl12_345 : ℚ :=
  mkRat 123450000000000006394884621840901672840118408203125 (10 ^ 49)

/-- The exact rational value of the double nearest 1000.1, namely
1000.1000000000000227373675443232059478759765625. -/
def dbl1000_1 : ℚ :=
  mkRat 10001000000000000227373675443232059478759765625 (10 ^ 43)

/-- The exact rational value of the double nearest 1048.6, namely
1048.59999999999990905052982270717620849609375 (slightly below 1048.6;
round(1048.6, 0) is still 1049.0). -/
def dbl1048_6 : ℚ :=
  mkRat 104859999999999990905052982270717620849609375 (10 ^ 41)

end RiverBot

namespace RiverBot

/-- The loop of `status_symbol` with a missing flow falls through every
comparison, ending at the Danger fallback. -/
theorem walkLevels_none (levels : List (ℚ × String)) :
    walkLevels none levels = markerOf "Danger" := by
  induction levels with
  | nil => rfl
  | cons kv rest ih => simpa [walkLevels, pyLt] using ih

/-- Key membership agrees with lookup success on the dict model. -/
theorem containsKey_eq_isSome {α : Type} (d : List (String × α)) (k : String) :
    containsKey d k = (dictFind? d k).isSome := by
  unfold containsKey dictFind?
  induction d with
  | nil => rfl
  | cons p rest ih =>
      by_cases hp : p.1 == k
      · simp [hp]
      · simpa [hp] using ih

/-- C1: for a station whose configured threshold list is
`[(20, Safe), (35, Warn), (50, Danger)]`, a non-missing flow `v` classifies as
Safe for `v < 20`, Warn for `20 ≤ v < 35`, Danger for `35 ≤ v < 50` (first
matching bound) and Danger for `v ≥ 50` (no bound matches, most severe
fallback); in particular `v = 20` yields Warn and `v = 35` yields Danger. -/
theorem status_symbol_threshold_walk (id : String) (v : ℚ)
    (h : dictFind? MARKER_LEVELS id =
      some [(20, "🟢"), (35, "🟡"), (50, "🔴")]) :
    (v < 20 → status_symbol id (some v) = "🟢") ∧
    (20 ≤ v → v < 35 → status_symbol id (some v) = "🟡") ∧
    (35 ≤ v → v < 50 → status_symbol id (some v) = "🔴") ∧
    (50 ≤ v → status_symbol id (some v) = "🔴") := by
  have hD : markerOf "Danger" = "🔴" := by decide
  have hs : status_symbol id (some v) =
      (if v < 20 then "🟢" else if v < 35 then "🟡" else
       if v < 50 then "🔴" else "🔴") := by
    unfold status_symbol
    rw [h]
    simp only [walkLevels, pyLt, decide_eq_true_eq, hD]
  refine ⟨fun h1 => ?_, fun h1 h2 => ?_, fun h1 h2 => ?_, fun h1 => ?_⟩ <;> rw [hs]
  · rw [if_pos h1]
  · rw [if_neg (not_lt.mpr h1), if_pos h2]
  · rw [if_neg (not_lt.mpr (by linarith)), if_neg (not_lt.mpr h1), if_pos h2]
  · rw [if_neg (not_lt.mpr (by linarith)), if_neg (not_lt.mpr (by linarith)),
      if_neg (not_lt.mpr h1)]

/-- Witness for C1: the station 05BJ001 has exactly that threshold list, and
the boundary values classify as the claim states (20 → Warn, 35 → Danger),
together with one point in each bucket. -/
theorem status_symbol_threshold_walk_witness :
    status_symbol "05BJ001" (some 5) = "🟢" ∧
    status_symbol "05BJ001" (some 20) = "🟡" ∧
    status_symbol "05BJ001" (some 35) = "🔴" ∧
    status_symbol "05BJ001" (some 60) = "🔴" := by
  have h : dictFind? MARKER_LEVELS "05BJ001" =
      some [(20, "🟢"), (35, "🟡"), (50, "🔴")] := by decide
  exact ⟨(status_symbol_threshold_walk "05BJ001" 5 h).1 (by norm_num),
    (status_symbol_threshold_walk "05BJ001" 20 h).2.1 (by norm_num) (by norm_num),
    (status_symbol_threshold_walk "05BJ001" 35 h).2.2.1 (by norm_num) (by norm_num),
    (status_symbol_threshold_walk "05BJ001" 60 h).2.2.2 (by norm_num)⟩

/-- C2 counterexample: for the configured station 05BJ001 a missing (NaN)
flow makes every `flow < key` comparison false, so the loop falls through and
`status_symbol` returns the Danger marker, not the empty "unclassified"
marker the claim requires. -/
theorem status_symbol_nan_counterexample :
    status_symbol "05BJ001" none = "🔴" ∧ "🔴" ≠ "" := by
  exact ⟨by decide, by decide⟩

/-- C2 amended: a missing (NaN) flow yields the empty "unclassified" marker
only for stations with no configured thresholds; for a station present in
MARKER_LEVELS every comparison against NaN is false, so the walk falls
through to the Danger marker. -/
theorem status_symbol_nan_amended (id : String) :
    status_symbol id none =
      (if containsKey MARKER_LEVELS id then "🔴" else "") := by
  have hD : markerOf "Danger" = "🔴" := by decide
  rw [containsKey_eq_isSome]
  unfold status_symbol
  cases hf : dictFind? MARKER_LEVELS id with
  | none => simp
  | some levels => simp [walkLevels_none, hD]

/-- C7: a station identifier with no configured threshold rules (absent from
MARKER_LEVELS) classifies every flow value, missing or not, as the empty
"unclassified" marker. -/
theorem status_symbol_unconfigured (id : String) (flow : PyFloat)
    (h : dictFind? MARKER_LEVELS id = none) :
    status_symbol id flow = "" := by
  unfold status_symbol
  rw [h]

/-- Witness for C7: the Bow River station 05BH004 has no threshold rules, and
classifies both a present and a missing flow as unclassified. -/
theorem status_symbol_unconfigured_witness :
    status_symbol "05BH004" (some 100) = "" ∧ status_symbol "05BH004" none = "" :=
  ⟨status_symbol_unconfigured "05BH004" (some 100) (by decide),
   status_symbol_unconfigured "05BH004" none (by decide)⟩

/-- C6: pull_station with a station identifier outside the station catalog
returns the `False` sentinel, whatever the other arguments, before touching
any data. -/
theorem pull_station_unknown_station (id : String) (aggregate : Bool)
    (df : List RawRow) (h : containsKey STATIONS id = false) :
    pull_station id aggregate df = PullResult.failure := by
  unfold pull_station
  simp [h]

/-- Witness for C6: the station 00XX000 is not in the catalog, and shaping
fails with the sentinel. -/
theorem pull_station_unknown_station_witness :
    containsKey STATIONS "00XX000" = false ∧
    pull_station "00XX000" true
      [⟨0, "05BH004", "Bow River at Calgary", Cell.numeric 1, Cell.numeric 2⟩] =
      PullResult.failure :=
  ⟨by decide, pull_station_unknown_station "00XX000" true _ (by decide)⟩

/-- C8: for a configured station, pull_station (non-aggregating) returns the
station's filtered rows with level and flow numerically coerced: exactly as
many rows as the filter keeps, each row's day and station fields untouched,
each level/flow cell coerced — and a cell that fails coercion becomes NaN
(missing), never an error. -/
theorem pull_station_coercion (df : List RawRow) (id : String)
    (h : containsKey STATIONS id = true) :
    pull_station id false df =
      PullResult.table
        ((df.filter (fun r => r.station_number == id)).map coerceRow) ∧
    ((df.filter (fun r => r.station_number == id)).map coerceRow).length =
      (df.filter (fun r => r.station_number == id)).length ∧
    (∀ i : ℕ,
      (((df.filter (fun r => r.station_number == id)).map coerceRow)[i]?).map
          (fun r => (r.day, r.station_number, r.station_name)) =
        ((df.filter (fun r => r.station_number == id))[i]?).map
          (fun r => (r.day, r.station_number, r.station_name)) ∧
      (((df.filter (fun r => r.station_number == id)).map coerceRow)[i]?).map
          (fun r => r.level) =
        ((df.filter (fun r => r.station_number == id))[i]?).map
          (fun r => coerceCell r.level) ∧
      (((df.filter (fun r => r.station_number == id)).map coerceRow)[i]?).map
          (fun r => r.flow) =
        ((df.filter (fun r => r.station_number == id))[i]?).map
          (fun r => coerceCell r.flow)) ∧
    (∀ s : String, coerceCell (Cell.text s) = Cell.nan) := by
  refine ⟨?_, by simp, fun i => ?_, fun s => rfl⟩
  · unfold pull_station
    simp [h]
  · refine ⟨?_, ?_, ?_⟩ <;>
      · rw [List.getElem?_map, Option.map_map]
        cases (df.filter (fun r => r.station_number == id))[i]? <;> rfl

/-- Witness for C8: a Bow River row whose level cell is non-numeric text is
kept, with the level coerced to NaN and the flow kept numeric. -/
theorem pull_station_coercion_witness :
    containsKey STATIONS "05BH004" = true ∧
    pull_station "05BH004" false
      [⟨0, "05BH004", "Bow River at Calgary", Cell.text "ice", Cell.numeric 3⟩,
       ⟨0, "05BJ001", "Elbow River below Glenmore Dam", Cell.numeric 1,
        Cell.numeric 2⟩] =
      PullResult.table
        [⟨0, "05BH004", "Bow River at Calgary", Cell.nan, Cell.numeric 3⟩] := by
  refine ⟨by decide, ?_⟩
  rw [(pull_station_coercion _ "05BH004" (by decide)).1]
  decide

/-- C3 evaluated at the failing input (code bug): the AGGREGATE_COLUMNS dict
literal repeats the key "flow", so only the last entry (np.max) survives:
the daily aggregate has columns level (mean), level_min, level_max and a
single flow column aggregated by max — no flow mean or flow min at all. Two
same-day readings with flow 10 and 20 aggregate to flow 20 (max), not the
claimed flow_mean 15 / flow_min 10 / flow_max 20; an empty day is
zero-filled. -/
theorem aggregate_key_collision_eval :
    AGGREGATE_COLUMNS =
      [("level", AggFn.mean), ("level_min", AggFn.min),
       ("level_max", AggFn.max), ("flow", AggFn.max)] ∧
    pull_station "05BH004" true
      [⟨0, "05BH004", "Bow River at Calgary", Cell.numeric 1, Cell.numeric 10⟩,
       ⟨0, "05BH004", "Bow River at Calgary", Cell.numeric 3, Cell.numeric 20⟩,
       ⟨2, "05BH004", "Bow River at Calgary", Cell.numeric 7, Cell.numeric 5⟩] =
      PullResult.agg
        [(0, [("level", listMean [1, 3]), ("level_min", 1), ("level_max", 3),
              ("flow", 20)]),
         (1, [("level", 0), ("level_min", 0), ("level_max", 0), ("flow", 0)]),
         (2, [("level", listMean [7]), ("level_min", 7), ("level_max", 7),
              ("flow", 5)])] ∧
    listMean [1, 3] = 2 ∧ listMean [7] = 7 := by
  exact ⟨by decide, by rfl, by norm_num [listMean], by norm_num [listMean]⟩

/-- C10: pull_station never mutates the caller's table. Boolean-mask
filtering allocates a fresh frame and the numeric coercion is assigned to
that fresh frame, so every frame already on the heap — in particular the
pull_from_df argument — is unchanged by the call. -/
theorem pull_station_heap_frames_unchanged (h : Heap) (ref i : ℕ)
    (id : String) (hi : i < h.length) :
    ((pull_station_heap id h ref).1)[i]? = h[i]? := by
  unfold pull_station_heap
  by_cases hc : containsKey STATIONS id = true
  · simp only [hc, if_true]
    rw [List.getElem?_set_ne (by omega)]
    exact List.getElem?_append_left hi
  · simp [hc]

/-- Witness for C10: a one-frame heap holding the raw table; after shaping
station 05BH004 from it, the original frame still holds its raw (uncoerced)
row. -/
theorem pull_station_heap_frames_unchanged_witness :
    (0 : ℕ) < 1 ∧
    ((pull_station_heap "05BH004"
        [[⟨0, "05BH004", "Bow River at Calgary", Cell.text "ice",
           Cell.numeric 2⟩]] 0).1)[0]? =
      some [⟨0, "05BH004", "Bow River at Calgary", Cell.text "ice",
             Cell.numeric 2⟩] := by
  refine ⟨by decide, ?_⟩
  rw [pull_station_heap_frames_unchanged _ 0 0 "05BH004" (by decide)]
  decide

/-- The upload loop: starting from accumulated ids `acc` after `k` uploads,
it emits one media_upload event per image in list order and returns the
accumulator extended by the API's next responses in order. -/
theorem uploadImages_spec (api : ℕ → String) (k : ℕ) (acc : List String)
    (l : List (Img × String)) :
    uploadImages api k acc l =
      (l.map (fun p => ApiEvent.mediaUpload p.2 p.1),
       acc ++ (List.range l.length).map (fun i => api (k + i))) := by
  induction l generalizing k acc with
  | nil => simp [uploadImages]
  | cons p rest ih =>
      cases p with
      | mk image image_name =>
          simp only [uploadImages, ih, List.map_cons, List.length_cons,
            List.range_succ_eq_map, List.map_map, Prod.mk.injEq, true_and]
          rw [List.append_assoc]
          simp only [List.singleton_append, Nat.add_zero]
          congr 1
          congr 1
          apply List.map_congr_left
          intro a _
          simp only [Function.comp_apply]
          congr 1
          omega

/-- C9: the publish operation first performs one media_upload per supplied
image, in list order, and then exactly one update_status call carrying the
summary text together with the captured media handles, in the same order as
the image list (the API's response to upload i is handle `api i`). -/
theorem tweet_general_update_order (api : ℕ → String) (tweet_str : String)
    (image_list : List (Img × String)) :
    tweet_general_update api tweet_str image_list =
      image_list.map (fun p => ApiEvent.mediaUpload p.2 p.1) ++
      [ApiEvent.updateStatus tweet_str
        ((List.range image_list.length).map api)] := by
  unfold tweet_general_update
  rw [uploadImages_spec]
  simp

/-- C4 counterexample: Python round(x, 0) returns a float, so the Glenmore
line renders the level 1048.6 as "1049.0 m", not the claimed "1049 m". At
the claim's own inputs (bow_cochrane flow 12.345 and level 1000.1 — their
exact double values — and glenmore level 1048.6) the formatter reproduces
the claimed Bow Cochrane line "12.35 m3/min, 1000.1 m" but not the claimed
Glenmore rendering. -/
theorem gen_tweet_str_glenmore_counterexample :
    gen_tweet_str
      ⟨⟨6, 15, 2023, 6, 15⟩, "05BH004", "Bow River at Calgary",
        some (mkRat 525 100), some (100 : ℚ)⟩
      ⟨⟨6, 15, 2023, 6, 15⟩, "05BJ001", "Elbow River below Glenmore Dam",
        some (mkRat 25 10), some (mkRat 255 10)⟩
      ⟨⟨6, 15, 2023, 6, 15⟩, "05BJ008", "Glenmore Reservoir at Calgary",
        some dbl1048_6, none⟩
      ⟨⟨6, 15, 2023, 6, 15⟩, "05BH005", "Bow River near Cochrane",
        some dbl1000_1, some dbl12_345⟩ =
      "River Stats 06/15/2023 06:15 AM\nBow Cochrane: 12.35 m3/min, 1000.1 m\nBow YYC: 100.0 m3/min, 5.25 m\nElbow YYC: 🟡: 25.5 m3/min, 2.5 m\nGlenmore Resevoir: 1049.0 m\n" ∧
    "River Stats 06/15/2023 06:15 AM\nBow Cochrane: 12.35 m3/min, 1000.1 m\nBow YYC: 100.0 m3/min, 5.25 m\nElbow YYC: 🟡: 25.5 m3/min, 2.5 m\nGlenmore Resevoir: 1049.0 m\n" ≠
      "River Stats 06/15/2023 06:15 AM\nBow Cochrane: 12.35 m3/min, 1000.1 m\nBow YYC: 100.0 m3/min, 5.25 m\nElbow YYC: 🟡: 25.5 m3/min, 2.5 m\nGlenmore Resevoir: 1049 m\n" := by
  exact ⟨by decide, by decide⟩

/-- C4 amended: with the four readings holding the exact double values of
the claim (bow_cochrane flow 12.345, level 1000.1; glenmore level 1048.6),
the formatter reproduces the exact template text with flow and level rounded
to 2 decimal places and the Glenmore level to 0 decimal places — but a
rounded value is still a float, so an integral result keeps a trailing ".0":
the Bow Cochrane line is "Bow Cochrane: 12.35 m3/min, 1000.1 m" and the
Glenmore line is "Glenmore Resevoir: 1049.0 m". -/
theorem gen_tweet_str_rounding_exact :
    gen_tweet_str
      ⟨⟨6, 15, 2023, 6, 15⟩, "05BH004", "Bow River at Calgary",
        some (mkRat 525 100), some (100 : ℚ)⟩
      ⟨⟨6, 15, 2023, 6, 15⟩, "05BJ001", "Elbow River below Glenmore Dam",
        some (mkRat 25 10), some (mkRat 255 10)⟩
      ⟨⟨6, 15, 2023, 6, 15⟩, "05BJ008", "Glenmore Reservoir at Calgary",
        some dbl1048_6, none⟩
      ⟨⟨6, 15, 2023, 6, 15⟩, "05BH005", "Bow River near Cochrane",
        some dbl1000_1, some dbl12_345⟩ =
      "River Stats 06/15/2023 06:15 AM\nBow Cochrane: 12.35 m3/min, 1000.1 m\nBow YYC: 100.0 m3/min, 5.25 m\nElbow YYC: 🟡: 25.5 m3/min, 2.5 m\nGlenmore Resevoir: 1049.0 m\n" := by
  decide

/-- C5 counterexample: a missing flow renders "N/A", but a missing level has
no guard: round propagates NaN and it renders "nan". With bow_cochrane flow
and level both missing and the glenmore level missing, the output contains
"nan m" where the claim demands "N/A". -/
theorem gen_tweet_str_nan_counterexample :
    gen_tweet_str
      ⟨⟨1, 2, 2021, 18, 5⟩, "05BH004", "Bow River at Calgary",
        some (mkRat 15 10), some (mkRat 225 100)⟩
      ⟨⟨1, 2, 2021, 18, 5⟩, "05BJ001", "Elbow River below Glenmore Dam",
        some (mkRat 35 10), some (10 : ℚ)⟩
      ⟨⟨1, 2, 2021, 18, 5⟩, "05BJ008", "Glenmore Reservoir at Calgary",
        none, none⟩
      ⟨⟨1, 2, 2021, 18, 5⟩, "05BH005", "Bow River near Cochrane",
        none, none⟩ =
      "River Stats 01/02/2021 18:05 PM\nBow Cochrane: N/A m3/min, nan m\nBow YYC: 2.25 m3/min, 1.5 m\nElbow YYC: 🟢: 10.0 m3/min, 3.5 m\nGlenmore Resevoir: nan m\n" ∧
    "River Stats 01/02/2021 18:05 PM\nBow Cochrane: N/A m3/min, nan m\nBow YYC: 2.25 m3/min, 1.5 m\nElbow YYC: 🟢: 10.0 m3/min, 3.5 m\nGlenmore Resevoir: nan m\n" ≠
      "River Stats 01/02/2021 18:05 PM\nBow Cochrane: N/A m3/min, N/A m\nBow YYC: 2.25 m3/min, 1.5 m\nElbow YYC: 🟢: 10.0 m3/min, 3.5 m\nGlenmore Resevoir: N/A m\n" := by
  exact ⟨by decide, by decide⟩

/-- C5 amended: the formatter always returns a well-formed template string
and never fails on missing values, but only missing flow values render as
"N/A"; a missing level value renders as "nan" (round propagates NaN and the
f-string prints it). -/
theorem gen_tweet_str_missing_renders (bow elbow glenmore bow_c : Reading)
    (hcf : bow_c.flow = none) (hcl : bow_c.level = none)
    (hgl : glenmore.level = none) :
    gen_tweet_str bow elbow glenmore bow_c =
      "River Stats " ++ strftimeHeader bow.ts ++ "\n" ++
      "Bow Cochrane: " ++ "N/A" ++ " m3/min, " ++ "nan" ++ " m\n" ++
      "Bow YYC: " ++ showFlow bow.flow ++ " m3/min, " ++
        showRoundedLevel bow.level 2 ++ " m\n" ++
      "Elbow YYC: " ++ status_symbol elbow.station_number elbow.flow ++ ": " ++
        showFlow elbow.flow ++ " m3/min, " ++
        showRoundedLevel elbow.level 2 ++ " m\n" ++
      "Glenmore Resevoir: " ++ "nan" ++ " m\n" := by
  unfold gen_tweet_str
  rw [hcf, hcl, hgl]
  rfl

/-- Witness for C5 amended: at concrete readings with missing bow_cochrane
flow/level and missing glenmore level, the formatter returns the well-formed
string with "N/A" for the missing flow and "nan" for the missing levels. -/
theorem gen_tweet_str_missing_renders_witness :
    gen_tweet_str
      ⟨⟨7, 4, 2022, 9, 30⟩, "05BH004", "Bow River at Calgary",
        some (mkRat 15 10), some (mkRat 225 100)⟩
      ⟨⟨7, 4, 2022, 9, 30⟩, "05BJ001", "Elbow River below Glenmore Dam",
        some (mkRat 35 10), some (40 : ℚ)⟩
      ⟨⟨7, 4, 2022, 9, 30⟩, "05BJ008", "Glenmore Reservoir at Calgary",
        none, none⟩
      ⟨⟨7, 4, 2022, 9, 30⟩, "05BH005", "Bow River near Cochrane",
        none, none⟩ =
      "River Stats 07/04/2022 09:30 AM\nBow Cochrane: N/A m3/min, nan m\nBow YYC: 2.25 m3/min, 1.5 m\nElbow YYC: 🔴: 40.0 m3/min, 3.5 m\nGlenmore Resevoir: nan m\n" := by
  rw [gen_tweet_str_missing_renders _ _ _ _ rfl rfl rfl]
  decide

end RiverBot
